import Mathlib

/-!
Shallow embedding of the view-compiler property binder
(modules/@angular/compiler/src/view_compiler/property_binder.ts).

The binder is a code-generation pass: it never executes bindings, it builds
output-AST statements and appends them to the methods and field list of a
view under construction.  We embed the output AST as a free algebra over the
builder calls that property_binder.ts actually makes (the generic output
statement/expression builder is an external collaborator), and we thread the
mutable view/method aggregates explicitly: each TypeScript function that
mutates `view` and a `method` becomes a Lean function returning the updated
view and statement list.
-/

namespace ViewCompiler

/-- Statement modifiers used by the binder (output_ast StmtModifier). -/
inductive StmtModifier where
  | Final
  | Private
deriving DecidableEq, Repr

/-- A class field pushed onto the generated view class (output_ast ClassField
with its name and modifiers; the binder always passes a null type). -/
structure ClassField where
  name : String
  modifiers : List StmtModifier
deriving DecidableEq, Repr

/-- Output-AST expressions, one constructor per builder call the binder makes:
this/null references, literals, variable and property reads, keyed reads,
references to imported identifiers, method/function calls, the binary
operators or/equals/plus, conditionals, the isBlank helper, and property
writes. -/
inductive OExpr where
  | thisExpr
  | nullExpr
  | literalStr (value : String)
  | literalBool (value : Bool)
  | readVar (name : String)
  | readProp (receiver : OExpr) (name : String)
  | key (receiver : OExpr) (index : OExpr)
  | importExpr (name : String)
  | callMethod (receiver : OExpr) (name : String) (args : List OExpr)
  | callFn (fn : OExpr) (args : List OExpr)
  | or (lhs rhs : OExpr)
  | equals (lhs rhs : OExpr)
  | plus (lhs rhs : OExpr)
  | conditional (cond trueCase falseCase : OExpr)
  | isBlank (value : OExpr)
  | writeProp (receiver : OExpr) (name : String) (value : OExpr)

/-- Output-AST statements: expression statements, variable declarations
(with optional initializer and a flag for the Final modifier), conditionals,
and the statement produced by an animation event listener.  The last one is
modelled from the spec: CompileEventListener.listenToAnimation lives in
event_binder.ts (an external collaborator, not under src/), so its statement
is opaque to this pass and we record only the listener's event name and the
transition variable it is wired to. -/
inductive OStmt where
  | exprStmt (e : OExpr)
  | declareVar (name : String) (value : Option OExpr) (final : Bool)
  | ifStmt (cond : OExpr) (thenStmts : List OStmt)
  | listenToAnimationStmt (eventName : String) (transitionVar : String)

/-- A property read whose receiver and name are still accessible
(output_ast ReadPropExpr). -/
structure ReadPropExpr where
  receiver : OExpr
  name : String

/-- A variable read whose name is still accessible (output_ast ReadVarExpr). -/
structure ReadVarExpr where
  name : String
deriving DecidableEq, Repr

def ReadPropExpr.expr (p : ReadPropExpr) : OExpr := .readProp p.receiver p.name

def ReadVarExpr.expr (v : ReadVarExpr) : OExpr := .readVar v.name

/-- createBindFieldExpr: the cached-value field for a binding slot. -/
def createBindFieldExpr (exprIndex : Nat) : ReadPropExpr :=
  ⟨.thisExpr, "_expr_" ++ toString exprIndex⟩

/-- createCurrValueExpr: the fresh-value local variable for a binding slot. -/
def createCurrValueExpr (exprIndex : Nat) : ReadVarExpr :=
  ⟨"currVal_" ++ toString exprIndex⟩

/-- Modelled from the spec: resolveIdentifier (identifiers.ts, not under
src/) resolves identifier metadata; the binder only needs the resulting
importable name, so we model identifiers by their names. -/
def resolveIdentifier (name : String) : String := name

def Identifiers.UNINITIALIZED : String := "UNINITIALIZED"

def Identifiers.checkBinding : String := "checkBinding"

def Identifiers.SecurityContext : String := "SecurityContext"

def Identifiers.setBindingDebugInfo : String := "setBindingDebugInfo"

/-- Modelled from the spec: DetectChangesVars (constants.ts, not under src/)
exposes the throw-on-change diagnostic flag variable. -/
def DetectChangesVars.throwOnChange : OExpr := .readVar "throwOnChange"

/-- Modelled from the spec: DetectChangesVars.valUnwrapper (constants.ts,
not under src/), the value-unwrapper helper variable. -/
def DetectChangesVars.valUnwrapper : OExpr := .readVar "valUnwrapper"

/-- Modelled from the spec: ViewProperties.viewUtils (constants.ts, not
under src/), the view-utilities variable carrying the sanitizer. -/
def ViewProperties.viewUtils : OExpr := .readVar "viewUtils"

/-- Modelled from the spec: the expression-to-IR converter
(convertCdExpressionToIr in expression_converter.ts, not under src/) turns a
parsed expression AST into a record holding the lowered expression (absent
for an empty expression), the number of required temporaries, and whether a
value unwrapper is needed.  The binder only inspects that record, so we
embed a parsed expression directly by its conversion result. -/
structure CdAst where
  expression : Option OExpr
  temporaryCount : Nat
  needsValueUnwrapper : Bool

/-- The name resolvers the binder passes to the converter: the view itself,
or a NoLocalsNameResolver wrapper for host properties.  The converter is an
external collaborator, so the resolver is inert data here. -/
inductive NameResolver where
  | viewResolver
  | noLocalsResolver
deriving DecidableEq, Repr

/-- Modelled from the spec: temporaryDeclaration (expression_converter.ts,
not under src/) declares the i-th temporary of a binding slot, its name
derived from the slot index to keep temporaries unique, initialized to
null. -/
def temporaryDeclaration (bindingIndex : Nat) (i : Nat) : OStmt :=
  .declareVar ("tmp_" ++ toString bindingIndex ++ "_" ++ toString i) (some .nullExpr) false

/-- Compiler configuration bit read by the binder. -/
structure GenConfig where
  logBindingUpdate : Bool
deriving DecidableEq, Repr

/-- A compiled binding record (compile_binding.ts): associates the binding
with the node it belongs to; one record is pushed per registered binding. -/
structure CompileBinding where
  nodeIndex : Nat
deriving DecidableEq, Repr

/-- The view under construction: its field list, binding list, and the
methods the binder appends statements to.  CompileMethod's statement
accumulation is modelled as a list; resetDebugInfo only updates debug
bookkeeping and adds no statements, so it is a no-op here. -/
structure CompileView where
  genConfig : GenConfig
  componentContext : OExpr
  fields : List ClassField
  bindings : List CompileBinding
  createMethod : List OStmt
  detectChangesRenderPropertiesMethod : List OStmt
  detectChangesInInputsMethod : List OStmt
  animationBindingsMethod : List OStmt
  detachMethod : List OStmt

/-- A compile node (text node target): its index and render-node
expression. -/
structure CompileNode where
  nodeIndex : Nat
  renderNode : OExpr

/-- A compile element: its index, render-node expression and app-element
expression (whose componentView property is the child component's view). -/
structure CompileElement where
  nodeIndex : Nat
  renderNode : OExpr
  appElement : OExpr

/-- An event listener as seen by the binder: whether it is an animation
listener and its event name (event_binder.ts collaborator). -/
structure CompileEventListener where
  isAnimation : Bool
  eventName : String
deriving DecidableEq, Repr

/-- EvalResult: the present outcome of expression evaluation, carrying the
optional force-update expression. -/
structure EvalResult where
  forceUpdate : Option OExpr

/-- evalCdAst: runs the converter on the parsed expression; on an absent
lowering returns none with the method untouched; otherwise appends the
temporary declarations, the unwrapper reset (when needed) and the final
declaration of the fresh-value variable, and reports the force-update
expression (the unwrapper's hasWrappedValue property) exactly when
unwrapping is needed. -/
def evalCdAst (view : CompileView) (currValExpr : ReadVarExpr) (parsedExpression : CdAst)
    (context : OExpr) (nameResolver : NameResolver) (method : List OStmt)
    (bindingIndex : Nat) : Option EvalResult × List OStmt :=
  let checkExpression := parsedExpression
  match checkExpression.expression with
  | none => (none, method)
  | some expr =>
    let method := method ++
      (List.range checkExpression.temporaryCount).map (temporaryDeclaration bindingIndex)
    let method := if checkExpression.needsValueUnwrapper then
        method ++ [.exprStmt (.callMethod DetectChangesVars.valUnwrapper "reset" [])]
      else method
    let method := method ++ [.declareVar currValExpr.name (some expr) true]
    if checkExpression.needsValueUnwrapper then
      (some ⟨some (.readProp DetectChangesVars.valUnwrapper "hasWrappedValue")⟩, method)
    else
      (some ⟨none⟩, method)

/-- bind: the change-guard emitter.  On an absent evaluation it emits
nothing; otherwise it pushes the private cached field, initializes it to the
UNINITIALIZED sentinel in the create method, and appends the conditional
guard (force-update, when present, OR-ed with the checkBinding call) whose
then-branch is the apply statements followed by the cached-field update. -/
def bind (view : CompileView) (currValExpr : ReadVarExpr) (fieldExpr : ReadPropExpr)
    (parsedExpression : CdAst) (context : OExpr) (nameResolver : NameResolver)
    (actions : List OStmt) (method : List OStmt) (bindingIndex : Nat) :
    CompileView × List OStmt :=
  match evalCdAst view currValExpr parsedExpression context nameResolver method bindingIndex with
  | (none, method) => (view, method)
  | (some evalResult, method) =>
    let view := { view with
      fields := view.fields ++ [ClassField.mk fieldExpr.name [StmtModifier.Private]],
      createMethod := view.createMethod ++
        [.exprStmt (.writeProp .thisExpr fieldExpr.name
          (.importExpr (resolveIdentifier Identifiers.UNINITIALIZED)))] }
    let condition : OExpr := .callFn (.importExpr (resolveIdentifier Identifiers.checkBinding))
      [DetectChangesVars.throwOnChange, fieldExpr.expr, currValExpr.expr]
    let condition := match evalResult.forceUpdate with
      | some forceUpdate => forceUpdate.or condition
      | none => condition
    (view, method ++ [.ifStmt condition
      (actions ++ [.exprStmt (.writeProp .thisExpr fieldExpr.name currValExpr.expr)])])

/-- A bound text node AST: its (pre-converted) value expression. -/
structure BoundTextAst where
  value : CdAst

/-- bindRenderText: registers the binding, derives the slot names, and
guards a single renderer.setText apply statement in the render-properties
change-detection method. -/
def bindRenderText (boundText : BoundTextAst) (compileNode : CompileNode)
    (view : CompileView) : CompileView :=
  let bindingIndex := view.bindings.length
  let view := { view with bindings := view.bindings ++ [CompileBinding.mk compileNode.nodeIndex] }
  let currValExpr := createCurrValueExpr bindingIndex
  let valueField := createBindFieldExpr bindingIndex
  let r := bind view currValExpr valueField boundText.value view.componentContext .viewResolver
    [.exprStmt (.callMethod (.readProp .thisExpr "renderer") "setText"
      [compileNode.renderNode, currValExpr.expr])]
    view.detectChangesRenderPropertiesMethod bindingIndex
  { r.1 with detectChangesRenderPropertiesMethod := r.2 }

/-- Modelled from the spec: SecurityContext (@angular/core, not under src/)
is a numeric enum with members NONE, HTML, STYLE, SCRIPT, URL, RESOURCE_URL;
being numeric, values outside the named members can reach the binder, so we
model the classification as a natural number with the enum's numbering. -/
abbrev SecurityContext := Nat

def SecurityContext.NONE : SecurityContext := 0

def SecurityContext.HTML : SecurityContext := 1

def SecurityContext.STYLE : SecurityContext := 2

def SecurityContext.SCRIPT : SecurityContext := 3

def SecurityContext.URL : SecurityContext := 4

def SecurityContext.RESOURCE_URL : SecurityContext := 5

/-- The binding kinds of a bound element property. -/
inductive PropertyBindingType where
  | Property
  | Attribute
  | Class
  | Style
  | Animation
deriving DecidableEq, Repr

/-- A bound element property AST: binding kind, target name, (pre-converted)
value expression, optional unit (Style), and security classification. -/
structure BoundElementPropertyAst where
  type : PropertyBindingType
  name : String
  value : CdAst
  unit : Option String
  securityContext : SecurityContext

/-- The sanitize call built for a non-NONE classification:
viewUtils.sanitizer.sanitize(SecurityContext.enumValue, value). -/
def sanitizeCall (enumValue : String) (renderValue : OExpr) : OExpr :=
  .callMethod (.readProp ViewProperties.viewUtils "sanitizer") "sanitize"
    [.readProp (.importExpr (resolveIdentifier Identifiers.SecurityContext)) enumValue, renderValue]

/-- sanitizedValue: NONE passes the value through; each named non-NONE
classification builds the sanitize call with the matching enum constant; any
other classification throws a generation-time error. -/
def sanitizedValue (boundProp : BoundElementPropertyAst) (renderValue : OExpr) :
    Except String OExpr :=
  match boundProp.securityContext with
  | 0 => .ok renderValue
  | 1 => .ok (sanitizeCall "HTML" renderValue)
  | 2 => .ok (sanitizeCall "STYLE" renderValue)
  | 3 => .ok (sanitizeCall "SCRIPT" renderValue)
  | 4 => .ok (sanitizeCall "URL" renderValue)
  | 5 => .ok (sanitizeCall "RESOURCE_URL" renderValue)
  | sc => .error ("internal error, unexpected SecurityContext " ++ toString sc ++ ".")

/-- logBindingUpdateStmt: the optional debug statement emitted before a
property update when binding-update logging is enabled. -/
def logBindingUpdateStmt (renderNode : OExpr) (propName : String) (value : OExpr) : OStmt :=
  .exprStmt (.callFn (.importExpr (resolveIdentifier Identifiers.setBindingDebugInfo))
    [.readProp .thisExpr "renderer", renderNode, .literalStr propName, value])

/-- Modelled from the spec: EMPTY_STATE (re-exported from core as
EMPTY_ANIMATION_STATE, not under src/), the well-known empty animation state
constant substituted for uninitialized values. -/
def EMPTY_ANIMATION_STATE : String := "void"

/-- One iteration of bindAndWriteToRenderer's forEach over the bound
properties: registers the binding, sanitizes old and fresh values, builds
the kind-specific update statements (and, for Animation, the detach wiring
and method rerouting), and delegates to bind — passing the binding list
length re-read after registration as the binding index. -/
def bindAndWriteToRendererStep (context : OExpr) (compileElement : CompileElement)
    (isHostProp : Bool) (eventListeners : List CompileEventListener)
    (view : CompileView) (boundProp : BoundElementPropertyAst) :
    Except String CompileView := do
  let renderNode := compileElement.renderNode
  let bindingIndex := view.bindings.length
  let view := { view with bindings := view.bindings ++ [CompileBinding.mk compileElement.nodeIndex] }
  let fieldExpr := createBindFieldExpr bindingIndex
  let currValExpr := createCurrValueExpr bindingIndex
  let oldRenderValue ← sanitizedValue boundProp fieldExpr.expr
  let renderValue ← sanitizedValue boundProp currValExpr.expr
  let stepCase : List OStmt × CompileView × Bool :=
    match boundProp.type with
    | .Property =>
      let updateStmts := if view.genConfig.logBindingUpdate then
          [logBindingUpdateStmt renderNode boundProp.name renderValue]
        else []
      (updateStmts ++ [.exprStmt (.callMethod (.readProp .thisExpr "renderer")
          "setElementProperty" [renderNode, .literalStr boundProp.name, renderValue])],
        view, false)
    | .Attribute =>
      let renderValue := OExpr.conditional (.isBlank renderValue) .nullExpr
        (.callMethod renderValue "toString" [])
      ([.exprStmt (.callMethod (.readProp .thisExpr "renderer")
          "setElementAttribute" [renderNode, .literalStr boundProp.name, renderValue])],
        view, false)
    | .Class =>
      ([.exprStmt (.callMethod (.readProp .thisExpr "renderer")
          "setElementClass" [renderNode, .literalStr boundProp.name, renderValue])],
        view, false)
    | .Style =>
      let strValue : OExpr := .callMethod renderValue "toString" []
      let strValue := match boundProp.unit with
        | some u => OExpr.plus strValue (.literalStr u)
        | none => strValue
      let renderValue := OExpr.conditional (.isBlank renderValue) .nullExpr strValue
      ([.exprStmt (.callMethod (.readProp .thisExpr "renderer")
          "setElementStyle" [renderNode, .literalStr boundProp.name, renderValue])],
        view, false)
    | .Animation =>
      let animationName := boundProp.name
      let targetViewExpr : OExpr := if isHostProp then
          .readProp compileElement.appElement "componentView"
        else .thisExpr
      let animationFnExpr : OExpr := .key
        (.readProp (.readProp targetViewExpr "componentType") "animations")
        (.literalStr animationName)
      let emptyStateValue : OExpr := .literalStr EMPTY_ANIMATION_STATE
      let unitializedValue : OExpr := .importExpr (resolveIdentifier Identifiers.UNINITIALIZED)
      let animationTransitionVar := ReadVarExpr.mk ("animationTransition_" ++ animationName)
      let updateStmts := [OStmt.declareVar animationTransitionVar.name
        (some (.callFn animationFnExpr [.thisExpr, renderNode,
          .conditional (.equals oldRenderValue unitializedValue) emptyStateValue oldRenderValue,
          .conditional (.equals renderValue unitializedValue) emptyStateValue renderValue]))
        false]
      let detachStmts := [OStmt.declareVar animationTransitionVar.name
        (some (.callFn animationFnExpr [.thisExpr, renderNode, oldRenderValue, emptyStateValue]))
        false]
      let listenerStmts := (eventListeners.filter
          (fun l => l.isAnimation && l.eventName == animationName)).map
        (fun l => OStmt.listenToAnimationStmt l.eventName animationTransitionVar.name)
      let updateStmts := updateStmts ++ listenerStmts
      let detachStmts := detachStmts ++ listenerStmts
      (updateStmts, { view with detachMethod := view.detachMethod ++ detachStmts }, true)
  let updateStmts := stepCase.1
  let view := stepCase.2.1
  let animationCase := stepCase.2.2
  let compileMethod := if animationCase then view.animationBindingsMethod
    else view.detectChangesRenderPropertiesMethod
  let r := bind view currValExpr fieldExpr boundProp.value context
    (if isHostProp then .noLocalsResolver else .viewResolver)
    updateStmts compileMethod view.bindings.length
  if animationCase then
    return { r.1 with animationBindingsMethod := r.2 }
  else
    return { r.1 with detectChangesRenderPropertiesMethod := r.2 }

/-- bindAndWriteToRenderer: iterates the bound properties in input order. -/
def bindAndWriteToRenderer (boundProps : List BoundElementPropertyAst) (context : OExpr)
    (compileElement : CompileElement) (isHostProp : Bool)
    (eventListeners : List CompileEventListener) (view : CompileView) :
    Except String CompileView :=
  boundProps.foldlM
    (fun v p => bindAndWriteToRendererStep context compileElement isHostProp eventListeners v p)
    view

/-- A directive input binding AST (BoundDirectivePropertyAst): the input's
directive-side name and its (pre-converted) value expression. -/
structure BoundDirectivePropertyAst where
  directiveName : String
  value : CdAst

/-- Modelled from the spec: ChangeDetectionStrategy (@angular/core, not
under src/): OnPush (push-based) or Default. -/
inductive ChangeDetectionStrategy where
  | OnPush
  | Default
deriving DecidableEq, Repr

/-- Modelled from the spec: isDefaultChangeDetectionStrategy (core, not
under src/) holds when no strategy is set or the strategy is Default. -/
def isDefaultChangeDetectionStrategy (cd : Option ChangeDetectionStrategy) : Bool :=
  cd.isNone || cd == some ChangeDetectionStrategy.Default

/-- Directive metadata read by the input binder. -/
structure CompileDirectiveMetadata where
  isComponent : Bool
  changeDetection : Option ChangeDetectionStrategy
deriving DecidableEq, Repr

/-- A directive AST: its metadata, input bindings and host properties. -/
structure DirectiveAst where
  directive : CompileDirectiveMetadata
  inputs : List BoundDirectivePropertyAst
  hostProperties : List BoundElementPropertyAst

/-- One iteration of bindDirectiveInputs' forEach over the inputs: registers
the binding, evaluates the expression, and on a present result emits the
wrapper's per-input check call; no field and no guard are allocated. -/
def bindDirectiveInputsStep (directiveWrapperInstance : OExpr) (compileElement : CompileElement)
    (acc : CompileView × List OStmt) (input : BoundDirectivePropertyAst) :
    CompileView × List OStmt :=
  let view := acc.1
  let method := acc.2
  let bindingIndex := view.bindings.length
  let view := { view with bindings := view.bindings ++ [CompileBinding.mk compileElement.nodeIndex] }
  let currValExpr := createCurrValueExpr bindingIndex
  match evalCdAst view currValExpr input.value view.componentContext .viewResolver method
    bindingIndex with
  | (none, method) => (view, method)
  | (some evalResult, method) =>
    (view, method ++ [.exprStmt (.callMethod directiveWrapperInstance
      ("check_" ++ input.directiveName)
      [currValExpr.expr, DetectChangesVars.throwOnChange,
       evalResult.forceUpdate.getD (.literalBool false)])])

/-- bindDirectiveInputs: forwards each input to the directive wrapper's
check method, then emits the wrapper's detectChangesInternal call — wrapped
in a markAsCheckOnce conditional exactly when the directive is a component
with a non-default change-detection strategy. -/
def bindDirectiveInputs (directiveAst : DirectiveAst) (directiveWrapperInstance : OExpr)
    (compileElement : CompileElement) (view : CompileView) : CompileView :=
  let acc := directiveAst.inputs.foldl
    (bindDirectiveInputsStep directiveWrapperInstance compileElement)
    (view, view.detectChangesInInputsMethod)
  let view := acc.1
  let detectChangesInInputsMethod := acc.2
  let isOnPushComp := directiveAst.directive.isComponent &&
    !(isDefaultChangeDetectionStrategy directiveAst.directive.changeDetection)
  let directiveDetectChangesExpr := OExpr.callMethod directiveWrapperInstance
    "detectChangesInternal" [.thisExpr, compileElement.renderNode, DetectChangesVars.throwOnChange]
  let directiveDetectChangesStmt := if isOnPushComp then
      OStmt.ifStmt directiveDetectChangesExpr
        [.exprStmt (.callMethod (.readProp compileElement.appElement "componentView")
          "markAsCheckOnce" [])]
    else .exprStmt directiveDetectChangesExpr
  { view with detectChangesInInputsMethod := detectChangesInInputsMethod ++
      [directiveDetectChangesStmt] }

/-- bindRenderInputs: template element bindings use the view's component
context and are not host properties. -/
def bindRenderInputs (boundProps : List BoundElementPropertyAst)
    (compileElement : CompileElement) (eventListeners : List CompileEventListener)
    (view : CompileView) : Except String CompileView :=
  bindAndWriteToRenderer boundProps view.componentContext compileElement false eventListeners view

/-- bindDirectiveHostProps: host-property bindings use the directive
instance as context and are host properties. -/
def bindDirectiveHostProps (directiveAst : DirectiveAst) (directiveInstance : OExpr)
    (compileElement : CompileElement) (eventListeners : List CompileEventListener)
    (view : CompileView) : Except String CompileView :=
  bindAndWriteToRenderer directiveAst.hostProperties directiveInstance compileElement true
    eventListeners view

/-! Helper definitions naming the statement shapes the binder emits; they are
used to state and share the characterization lemmas below. -/

/-- The evaluation statements emitted for a present lowering: one declaration
per temporary, the unwrapper reset when needed, then the immutable
declaration of the fresh-value variable. -/
def evalStmts (ast : CdAst) (bindingIndex : Nat) (currValExpr : ReadVarExpr) (e : OExpr) :
    List OStmt :=
  (List.range ast.temporaryCount).map (temporaryDeclaration bindingIndex) ++
  (if ast.needsValueUnwrapper then
     [OStmt.exprStmt (.callMethod DetectChangesVars.valUnwrapper "reset" [])]
   else []) ++
  [OStmt.declareVar currValExpr.name (some e) true]

/-- The force-update expression reported by evalCdAst: the unwrapper's
hasWrappedValue property exactly when unwrapping is needed. -/
def evalForceUpdate (ast : CdAst) : Option OExpr :=
  if ast.needsValueUnwrapper then
    some (.readProp DetectChangesVars.valUnwrapper "hasWrappedValue")
  else none

/-- The create-method statement initializing a cached field to the
UNINITIALIZED sentinel. -/
def uninitializedInitStmt (fieldName : String) : OStmt :=
  .exprStmt (.writeProp .thisExpr fieldName
    (.importExpr (resolveIdentifier Identifiers.UNINITIALIZED)))

/-- The checkBinding comparison call on (throw-on-change flag, cached field,
fresh value). -/
def checkBindingCall (fieldExpr : ReadPropExpr) (currValExpr : ReadVarExpr) : OExpr :=
  .callFn (.importExpr (resolveIdentifier Identifiers.checkBinding))
    [DetectChangesVars.throwOnChange, fieldExpr.expr, currValExpr.expr]

/-- The guard condition: the force-update expression, when present, OR-ed
with the checkBinding call. -/
def bindCondition (ast : CdAst) (fieldExpr : ReadPropExpr) (currValExpr : ReadVarExpr) : OExpr :=
  match evalForceUpdate ast with
  | some forceUpdate => forceUpdate.or (checkBindingCall fieldExpr currValExpr)
  | none => checkBindingCall fieldExpr currValExpr

/-- The conditional guard statement: apply statements followed by the copy of
the fresh value into the cached field. -/
def guardStmt (ast : CdAst) (fieldExpr : ReadPropExpr) (currValExpr : ReadVarExpr)
    (actions : List OStmt) : OStmt :=
  .ifStmt (bindCondition ast fieldExpr currValExpr)
    (actions ++ [.exprStmt (.writeProp .thisExpr fieldExpr.name currValExpr.expr)])

/-- The renderer.setText apply statement of a text binding. -/
def setTextStmt (renderNode : OExpr) (currValExpr : ReadVarExpr) : OStmt :=
  .exprStmt (.callMethod (.readProp .thisExpr "renderer") "setText"
    [renderNode, currValExpr.expr])

/-- The renderer.setElementProperty apply statement. -/
def setElementPropertyStmt (renderNode : OExpr) (name : String) (renderValue : OExpr) : OStmt :=
  .exprStmt (.callMethod (.readProp .thisExpr "renderer") "setElementProperty"
    [renderNode, .literalStr name, renderValue])

/-- The renderer.setElementAttribute apply statement. -/
def setElementAttributeStmt (renderNode : OExpr) (name : String) (renderValue : OExpr) : OStmt :=
  .exprStmt (.callMethod (.readProp .thisExpr "renderer") "setElementAttribute"
    [renderNode, .literalStr name, renderValue])

/-- The renderer.setElementClass apply statement. -/
def setElementClassStmt (renderNode : OExpr) (name : String) (renderValue : OExpr) : OStmt :=
  .exprStmt (.callMethod (.readProp .thisExpr "renderer") "setElementClass"
    [renderNode, .literalStr name, renderValue])

/-- The renderer.setElementStyle apply statement. -/
def setElementStyleStmt (renderNode : OExpr) (name : String) (renderValue : OExpr) : OStmt :=
  .exprStmt (.callMethod (.readProp .thisExpr "renderer") "setElementStyle"
    [renderNode, .literalStr name, renderValue])

/-- The value an Attribute binding passes to the renderer: the null marker
when the value is blank, its string form otherwise. -/
def attributeRenderValue (renderValue : OExpr) : OExpr :=
  .conditional (.isBlank renderValue) .nullExpr (.callMethod renderValue "toString" [])

/-- The value a Style binding passes to the renderer: the null marker when
the value is blank, otherwise its string form with the declared unit
appended when present. -/
def styleRenderValue (renderValue : OExpr) (unit : Option String) : OExpr :=
  .conditional (.isBlank renderValue) .nullExpr
    (match unit with
     | some u => OExpr.plus (.callMethod renderValue "toString" []) (.literalStr u)
     | none => .callMethod renderValue "toString" [])

/-- The view whose animations table an Animation binding reads: the
element's component view for a host property, the current view otherwise. -/
def animTargetView (isHostProp : Bool) (compileElement : CompileElement) : OExpr :=
  if isHostProp then .readProp compileElement.appElement "componentView" else .thisExpr

/-- The animation-function lookup expression:
targetView.componentType.animations[animationName]. -/
def animationFn (targetViewExpr : OExpr) (animationName : String) : OExpr :=
  .key (.readProp (.readProp targetViewExpr "componentType") "animations")
    (.literalStr animationName)

/-- The update-path transition declaration: old and fresh values are each
replaced by the empty animation state exactly when equal to the
UNINITIALIZED sentinel. -/
def animationUpdateStmt (targetViewExpr renderNode oldV newV : OExpr)
    (animationName : String) : OStmt :=
  .declareVar ("animationTransition_" ++ animationName)
    (some (.callFn (animationFn targetViewExpr animationName)
      [.thisExpr, renderNode,
       .conditional (.equals oldV (.importExpr (resolveIdentifier Identifiers.UNINITIALIZED)))
         (.literalStr EMPTY_ANIMATION_STATE) oldV,
       .conditional (.equals newV (.importExpr (resolveIdentifier Identifiers.UNINITIALIZED)))
         (.literalStr EMPTY_ANIMATION_STATE) newV]))
    false

/-- The detach-path transition declaration: raw old value and the empty
animation state. -/
def animationDetachStmt (targetViewExpr renderNode oldV : OExpr)
    (animationName : String) : OStmt :=
  .declareVar ("animationTransition_" ++ animationName)
    (some (.callFn (animationFn targetViewExpr animationName)
      [.thisExpr, renderNode, oldV, .literalStr EMPTY_ANIMATION_STATE]))
    false

/-- The listener statements attached to both the update and detach paths of
an Animation binding. -/
def animationListenerStmts (eventListeners : List CompileEventListener)
    (animationName : String) : List OStmt :=
  (eventListeners.filter (fun l => l.isAnimation && l.eventName == animationName)).map
    (fun l => OStmt.listenToAnimationStmt l.eventName ("animationTransition_" ++ animationName))

/-- Installing a bind result whose target method was the render-properties
change-detection method. -/
def installRenderPropsMethod (r : CompileView × List OStmt) : CompileView :=
  { r.1 with detectChangesRenderPropertiesMethod := r.2 }

/-- Installing a bind result whose target method was the animation-bindings
method. -/
def installAnimationMethod (r : CompileView × List OStmt) : CompileView :=
  { r.1 with animationBindingsMethod := r.2 }

/-- The per-input check call emitted by the directive input binder. -/
def checkInputStmt (directiveWrapperInstance : OExpr) (directiveName : String)
    (currValExpr : ReadVarExpr) (forceUpdate : Option OExpr) : OStmt :=
  .exprStmt (.callMethod directiveWrapperInstance ("check_" ++ directiveName)
    [currValExpr.expr, DetectChangesVars.throwOnChange, forceUpdate.getD (.literalBool false)])

/-- Whether a statement is a conditional. -/
def OStmt.isIf : OStmt → Bool
  | .ifStmt _ _ => true
  | _ => false

/-! Concrete inputs used by the witnesses and the counterexample. -/

/-- A fresh empty view. -/
def sampleView : CompileView := ⟨⟨false⟩, .thisExpr, [], [], [], [], [], [], []⟩

/-- A present lowering needing one temporary and the value unwrapper. -/
def sampleAst : CdAst := ⟨some (.readVar "x"), 1, true⟩

/-- A present lowering needing no temporaries and no unwrapping. -/
def samplePlainAst : CdAst := ⟨some (.readVar "x"), 0, false⟩

/-- An absent lowering (empty expression). -/
def sampleAbsentAst : CdAst := ⟨none, 0, false⟩

/-- A sample text node. -/
def sampleNode : CompileNode := ⟨1, .readVar "renderNode1"⟩

/-- A sample element. -/
def sampleElement : CompileElement := ⟨2, .readVar "renderNode2", .readVar "appEl2"⟩

/-- A sample Attribute binding with classification NONE. -/
def c7AttrProp : BoundElementPropertyAst :=
  ⟨.Attribute, "title", samplePlainAst, none, SecurityContext.NONE⟩

/-- A sample Style binding with a declared unit. -/
def c7StyleProp : BoundElementPropertyAst :=
  ⟨.Style, "width", samplePlainAst, some "px", SecurityContext.NONE⟩

/-- A sample Animation binding. -/
def c6AnimProp : BoundElementPropertyAst :=
  ⟨.Animation, "fade", samplePlainAst, none, SecurityContext.NONE⟩

/-- Sample event listeners: one matching animation listener, one other. -/
def sampleListeners : List CompileEventListener := [⟨true, "fade"⟩, ⟨false, "fade"⟩]

/-- The render-property binding used by the C2 counterexample: a Property
binding whose lowering needs one temporary. -/
def c2Prop : BoundElementPropertyAst :=
  ⟨.Property, "title", ⟨some (.readVar "x"), 1, false⟩, none, SecurityContext.NONE⟩

/-- The run of the render-property binder on a fresh view, registering the
binding at slot 0. -/
def c2Run : Except String CompileView :=
  bindAndWriteToRendererStep .thisExpr sampleElement false [] sampleView c2Prop

/-- The resulting view of the C2 counterexample run. -/
def c2RunView : CompileView := c2Run.toOption.getD sampleView

/-- The run of the render-property binder used by the C2 witness. -/
def c2AmendedRun : Except String CompileView :=
  bindAndWriteToRendererStep .thisExpr sampleElement false [] sampleView c7AttrProp

/-- The resulting view of the C2 witness run. -/
def c2AmendedView : CompileView := c2AmendedRun.toOption.getD sampleView

/-! Characterization lemmas for the expression evaluator and guard emitter. -/

theorem evalCdAst_eq_of_absent (view : CompileView) (currValExpr : ReadVarExpr)
    (parsedExpression : CdAst) (context : OExpr) (nameResolver : NameResolver)
    (method : List OStmt) (bindingIndex : Nat)
    (h : parsedExpression.expression = none) :
    evalCdAst view currValExpr parsedExpression context nameResolver method bindingIndex =
      (none, method) := by
  simp [evalCdAst, h]

theorem evalCdAst_eq_of_present (view : CompileView) (currValExpr : ReadVarExpr)
    (parsedExpression : CdAst) (context : OExpr) (nameResolver : NameResolver)
    (method : List OStmt) (bindingIndex : Nat) (e : OExpr)
    (h : parsedExpression.expression = some e) :
    evalCdAst view currValExpr parsedExpression context nameResolver method bindingIndex =
      (some ⟨evalForceUpdate parsedExpression⟩,
        method ++ evalStmts parsedExpression bindingIndex currValExpr e) := by
  cases hnw : parsedExpression.needsValueUnwrapper <;>
    simp [evalCdAst, evalStmts, evalForceUpdate, h, hnw, List.append_assoc]

theorem bind_eq_of_absent (view : CompileView) (currValExpr : ReadVarExpr)
    (fieldExpr : ReadPropExpr) (parsedExpression : CdAst) (context : OExpr)
    (nameResolver : NameResolver) (actions : List OStmt) (method : List OStmt)
    (bindingIndex : Nat) (h : parsedExpression.expression = none) :
    bind view currValExpr fieldExpr parsedExpression context nameResolver actions method
        bindingIndex = (view, method) := by
  simp [bind, evalCdAst_eq_of_absent view currValExpr parsedExpression context nameResolver
    method bindingIndex h]

theorem bind_eq_of_present (view : CompileView) (currValExpr : ReadVarExpr)
    (fieldExpr : ReadPropExpr) (parsedExpression : CdAst) (context : OExpr)
    (nameResolver : NameResolver) (actions : List OStmt) (method : List OStmt)
    (bindingIndex : Nat) (e : OExpr) (h : parsedExpression.expression = some e) :
    bind view currValExpr fieldExpr parsedExpression context nameResolver actions method
        bindingIndex =
      ({ view with
          fields := view.fields ++ [ClassField.mk fieldExpr.name [StmtModifier.Private]],
          createMethod := view.createMethod ++ [uninitializedInitStmt fieldExpr.name] },
        method ++ evalStmts parsedExpression bindingIndex currValExpr e ++
          [guardStmt parsedExpression fieldExpr currValExpr actions]) := by
  rw [bind, evalCdAst_eq_of_present view currValExpr parsedExpression context nameResolver
    method bindingIndex e h]
  cases hfu : evalForceUpdate parsedExpression <;>
    simp [guardStmt, bindCondition, uninitializedInitStmt, checkBindingCall, hfu,
      List.append_assoc]

/-! Characterization lemmas for the binders. -/

theorem bindRenderText_eq_of_absent (boundText : BoundTextAst) (compileNode : CompileNode)
    (view : CompileView) (h : boundText.value.expression = none) :
    bindRenderText boundText compileNode view =
      { view with bindings := view.bindings ++ [CompileBinding.mk compileNode.nodeIndex] } := by
  simp [bindRenderText, bind_eq_of_absent _ _ _ _ _ _ _ _ _ h]

theorem bindRenderText_eq_of_present (boundText : BoundTextAst) (compileNode : CompileNode)
    (view : CompileView) (e : OExpr) (h : boundText.value.expression = some e) :
    bindRenderText boundText compileNode view =
      { view with
        bindings := view.bindings ++ [CompileBinding.mk compileNode.nodeIndex],
        fields := view.fields ++
          [ClassField.mk (createBindFieldExpr view.bindings.length).name [StmtModifier.Private]],
        createMethod := view.createMethod ++
          [uninitializedInitStmt (createBindFieldExpr view.bindings.length).name],
        detectChangesRenderPropertiesMethod := view.detectChangesRenderPropertiesMethod ++
          evalStmts boundText.value view.bindings.length
            (createCurrValueExpr view.bindings.length) e ++
          [guardStmt boundText.value (createBindFieldExpr view.bindings.length)
            (createCurrValueExpr view.bindings.length)
            [setTextStmt compileNode.renderNode (createCurrValueExpr view.bindings.length)]] } := by
  simp [bindRenderText, bind_eq_of_present _ _ _ _ _ _ _ _ _ _ h, setTextStmt]

theorem bindDirectiveInputsStep_eq_of_absent (directiveWrapperInstance : OExpr)
    (compileElement : CompileElement) (view : CompileView) (method : List OStmt)
    (input : BoundDirectivePropertyAst) (h : input.value.expression = none) :
    bindDirectiveInputsStep directiveWrapperInstance compileElement (view, method) input =
      ({ view with bindings := view.bindings ++ [CompileBinding.mk compileElement.nodeIndex] },
        method) := by
  simp [bindDirectiveInputsStep, evalCdAst_eq_of_absent _ _ _ _ _ _ _ h]

theorem bindDirectiveInputsStep_eq_of_present (directiveWrapperInstance : OExpr)
    (compileElement : CompileElement) (view : CompileView) (method : List OStmt)
    (input : BoundDirectivePropertyAst) (e : OExpr) (h : input.value.expression = some e) :
    bindDirectiveInputsStep directiveWrapperInstance compileElement (view, method) input =
      ({ view with bindings := view.bindings ++ [CompileBinding.mk compileElement.nodeIndex] },
        method ++ evalStmts input.value view.bindings.length
          (createCurrValueExpr view.bindings.length) e ++
        [checkInputStmt directiveWrapperInstance input.directiveName
          (createCurrValueExpr view.bindings.length) (evalForceUpdate input.value)]) := by
  simp [bindDirectiveInputsStep, evalCdAst_eq_of_present _ _ _ _ _ _ _ _ h, checkInputStmt,
    List.append_assoc]

theorem ok_bind {ε α β : Type} (a : α) (f : α → Except ε β) :
    (Except.ok a : Except ε α) >>= f = f a := rfl

theorem bindAndWriteToRendererStep_eq_property (context : OExpr)
    (compileElement : CompileElement) (isHostProp : Bool)
    (eventListeners : List CompileEventListener) (view : CompileView)
    (boundProp : BoundElementPropertyAst) (oldV newV : OExpr)
    (htype : boundProp.type = .Property)
    (hold : sanitizedValue boundProp (createBindFieldExpr view.bindings.length).expr = .ok oldV)
    (hnew : sanitizedValue boundProp (createCurrValueExpr view.bindings.length).expr = .ok newV) :
    bindAndWriteToRendererStep context compileElement isHostProp eventListeners view boundProp =
      .ok (installRenderPropsMethod
        (bind { view with bindings := view.bindings ++ [CompileBinding.mk compileElement.nodeIndex] }
          (createCurrValueExpr view.bindings.length) (createBindFieldExpr view.bindings.length)
          boundProp.value context (if isHostProp then .noLocalsResolver else .viewResolver)
          ((if view.genConfig.logBindingUpdate then
              [logBindingUpdateStmt compileElement.renderNode boundProp.name newV]
            else []) ++
            [setElementPropertyStmt compileElement.renderNode boundProp.name newV])
          view.detectChangesRenderPropertiesMethod
          (view.bindings.length + 1))) := by
  simp [bindAndWriteToRendererStep, hold, hnew, htype, installRenderPropsMethod,
    setElementPropertyStmt, ok_bind]

theorem bindAndWriteToRendererStep_eq_attribute (context : OExpr)
    (compileElement : CompileElement) (isHostProp : Bool)
    (eventListeners : List CompileEventListener) (view : CompileView)
    (boundProp : BoundElementPropertyAst) (oldV newV : OExpr)
    (htype : boundProp.type = .Attribute)
    (hold : sanitizedValue boundProp (createBindFieldExpr view.bindings.length).expr = .ok oldV)
    (hnew : sanitizedValue boundProp (createCurrValueExpr view.bindings.length).expr = .ok newV) :
    bindAndWriteToRendererStep context compileElement isHostProp eventListeners view boundProp =
      .ok (installRenderPropsMethod
        (bind { view with bindings := view.bindings ++ [CompileBinding.mk compileElement.nodeIndex] }
          (createCurrValueExpr view.bindings.length) (createBindFieldExpr view.bindings.length)
          boundProp.value context (if isHostProp then .noLocalsResolver else .viewResolver)
          [setElementAttributeStmt compileElement.renderNode boundProp.name
            (attributeRenderValue newV)]
          view.detectChangesRenderPropertiesMethod
          (view.bindings.length + 1))) := by
  simp [bindAndWriteToRendererStep, hold, hnew, htype, installRenderPropsMethod,
    setElementAttributeStmt, attributeRenderValue, ok_bind]

theorem bindAndWriteToRendererStep_eq_class (context : OExpr)
    (compileElement : CompileElement) (isHostProp : Bool)
    (eventListeners : List CompileEventListener) (view : CompileView)
    (boundProp : BoundElementPropertyAst) (oldV newV : OExpr)
    (htype : boundProp.type = .Class)
    (hold : sanitizedValue boundProp (createBindFieldExpr view.bindings.length).expr = .ok oldV)
    (hnew : sanitizedValue boundProp (createCurrValueExpr view.bindings.length).expr = .ok newV) :
    bindAndWriteToRendererStep context compileElement isHostProp eventListeners view boundProp =
      .ok (installRenderPropsMethod
        (bind { view with bindings := view.bindings ++ [CompileBinding.mk compileElement.nodeIndex] }
          (createCurrValueExpr view.bindings.length) (createBindFieldExpr view.bindings.length)
          boundProp.value context (if isHostProp then .noLocalsResolver else .viewResolver)
          [setElementClassStmt compileElement.renderNode boundProp.name newV]
          view.detectChangesRenderPropertiesMethod
          (view.bindings.length + 1))) := by
  simp [bindAndWriteToRendererStep, hold, hnew, htype, installRenderPropsMethod,
    setElementClassStmt, ok_bind]

theorem bindAndWriteToRendererStep_eq_style (context : OExpr)
    (compileElement : CompileElement) (isHostProp : Bool)
    (eventListeners : List CompileEventListener) (view : CompileView)
    (boundProp : BoundElementPropertyAst) (oldV newV : OExpr)
    (htype : boundProp.type = .Style)
    (hold : sanitizedValue boundProp (createBindFieldExpr view.bindings.length).expr = .ok oldV)
    (hnew : sanitizedValue boundProp (createCurrValueExpr view.bindings.length).expr = .ok newV) :
    bindAndWriteToRendererStep context compileElement isHostProp eventListeners view boundProp =
      .ok (installRenderPropsMethod
        (bind { view with bindings := view.bindings ++ [CompileBinding.mk compileElement.nodeIndex] }
          (createCurrValueExpr view.bindings.length) (createBindFieldExpr view.bindings.length)
          boundProp.value context (if isHostProp then .noLocalsResolver else .viewResolver)
          [setElementStyleStmt compileElement.renderNode boundProp.name
            (styleRenderValue newV boundProp.unit)]
          view.detectChangesRenderPropertiesMethod
          (view.bindings.length + 1))) := by
  cases hunit : boundProp.unit <;>
    simp [bindAndWriteToRendererStep, hold, hnew, htype, hunit, installRenderPropsMethod,
      setElementStyleStmt, styleRenderValue, ok_bind]

theorem bindAndWriteToRendererStep_eq_animation (context : OExpr)
    (compileElement : CompileElement) (isHostProp : Bool)
    (eventListeners : List CompileEventListener) (view : CompileView)
    (boundProp : BoundElementPropertyAst) (oldV newV : OExpr)
    (htype : boundProp.type = .Animation)
    (hold : sanitizedValue boundProp (createBindFieldExpr view.bindings.length).expr = .ok oldV)
    (hnew : sanitizedValue boundProp (createCurrValueExpr view.bindings.length).expr = .ok newV) :
    bindAndWriteToRendererStep context compileElement isHostProp eventListeners view boundProp =
      .ok (installAnimationMethod
        (bind { view with
            bindings := view.bindings ++ [CompileBinding.mk compileElement.nodeIndex],
            detachMethod := view.detachMethod ++
              [animationDetachStmt (animTargetView isHostProp compileElement)
                compileElement.renderNode oldV boundProp.name] ++
              animationListenerStmts eventListeners boundProp.name }
          (createCurrValueExpr view.bindings.length) (createBindFieldExpr view.bindings.length)
          boundProp.value context (if isHostProp then .noLocalsResolver else .viewResolver)
          ([animationUpdateStmt (animTargetView isHostProp compileElement)
              compileElement.renderNode oldV newV boundProp.name] ++
            animationListenerStmts eventListeners boundProp.name)
          view.animationBindingsMethod
          (view.bindings.length + 1))) := by
  simp [bindAndWriteToRendererStep, hold, hnew, htype, installAnimationMethod,
    animationUpdateStmt, animationDetachStmt, animationListenerStmts, animationFn,
    animTargetView, ok_bind]

theorem evalStmts_no_conditional (ast : CdAst) (bindingIndex : Nat)
    (currValExpr : ReadVarExpr) (e : OExpr) :
    (evalStmts ast bindingIndex currValExpr e).all (fun s => !s.isIf) = true := by
  cases hnw : ast.needsValueUnwrapper <;>
    simp [evalStmts, hnw, temporaryDeclaration, OStmt.isIf]

theorem unexpectedMessageDecomp (s : String) :
    "internal error, unexpected SecurityContext " ++ s ++ "." =
      "internal error, " ++ "unexpected SecurityContext" ++ (" " ++ s ++ ".") := by
  rw [show ("internal error, " ++ "unexpected SecurityContext" : String) =
    "internal error, unexpected SecurityContext" from rfl]
  rw [← String.append_assoc "internal error, unexpected SecurityContext" (" " ++ s) "."]
  rw [← String.append_assoc "internal error, unexpected SecurityContext" " " s]
  rfl

theorem foldl_method_extends (directiveWrapperInstance : OExpr)
    (compileElement : CompileElement) (inputs : List BoundDirectivePropertyAst) :
    ∀ view method, ∃ ext,
      (inputs.foldl (bindDirectiveInputsStep directiveWrapperInstance compileElement)
        (view, method)).2 = method ++ ext := by
  induction inputs with
  | nil => exact fun view method => ⟨[], by simp⟩
  | cons input rest ih =>
    intro view method
    rw [List.foldl_cons]
    cases h : input.value.expression with
    | none =>
      rw [bindDirectiveInputsStep_eq_of_absent directiveWrapperInstance compileElement view
        method input h]
      exact ih _ method
    | some e =>
      rw [bindDirectiveInputsStep_eq_of_present directiveWrapperInstance compileElement view
        method input e h]
      obtain ⟨ext, hext⟩ := ih
        ({ view with bindings := view.bindings ++ [CompileBinding.mk compileElement.nodeIndex] })
        (method ++ evalStmts input.value view.bindings.length
            (createCurrValueExpr view.bindings.length) e ++
          [checkInputStmt directiveWrapperInstance input.directiveName
            (createCurrValueExpr view.bindings.length) (evalForceUpdate input.value)])
      exact ⟨evalStmts input.value view.bindings.length
          (createCurrValueExpr view.bindings.length) e ++
        ([checkInputStmt directiveWrapperInstance input.directiveName
            (createCurrValueExpr view.bindings.length) (evalForceUpdate input.value)] ++ ext),
        by rw [hext]; simp [List.append_assoc]⟩

/-! The claims. -/

/-- C1: for every binding whose expression evaluation result is present, the
guard emitter adds exactly one private cached-value field to the view, adds
exactly one statement in the view's create method initializing that field to
the uninitialized sentinel, and appends to the target method (after the
evaluation statements, which contain no conditional) exactly one conditional
statement whose condition is the force-update flag (when present) OR-ed with
the checkBinding comparison of (throw-on-change flag, cached field, fresh
value), and whose then-branch is the caller-supplied apply statements
followed by a single statement copying the fresh value into the cached
field. -/
theorem C1_bind_present_emits_one_field_one_init_one_guard
    (view : CompileView) (currValExpr : ReadVarExpr) (fieldExpr : ReadPropExpr)
    (parsedExpression : CdAst) (context : OExpr) (nameResolver : NameResolver)
    (actions : List OStmt) (method : List OStmt) (bindingIndex : Nat) (e : OExpr)
    (h : parsedExpression.expression = some e) :
    bind view currValExpr fieldExpr parsedExpression context nameResolver actions method
        bindingIndex =
      ({ view with
          fields := view.fields ++ [ClassField.mk fieldExpr.name [StmtModifier.Private]],
          createMethod := view.createMethod ++
            [OStmt.exprStmt (.writeProp .thisExpr fieldExpr.name
              (.importExpr (resolveIdentifier Identifiers.UNINITIALIZED)))] },
        method ++ evalStmts parsedExpression bindingIndex currValExpr e ++
          [OStmt.ifStmt
            (match evalForceUpdate parsedExpression with
             | some forceUpdate => forceUpdate.or (checkBindingCall fieldExpr currValExpr)
             | none => checkBindingCall fieldExpr currValExpr)
            (actions ++ [.exprStmt (.writeProp .thisExpr fieldExpr.name currValExpr.expr)])]) ∧
      (evalStmts parsedExpression bindingIndex currValExpr e).all (fun s => !s.isIf) = true := by
  constructor
  · rw [bind_eq_of_present view currValExpr fieldExpr parsedExpression context nameResolver
      actions method bindingIndex e h]
    rfl
  · exact evalStmts_no_conditional parsedExpression bindingIndex currValExpr e

/-- C1 witness: at a concrete view and a present lowering, the guard emitter
adds the private field for slot 0. -/
theorem C1_witness :
    sampleAst.expression = some (OExpr.readVar "x") ∧
    (bind sampleView (createCurrValueExpr 0) (createBindFieldExpr 0) sampleAst .thisExpr
        .viewResolver [] [] 0).1.fields = [ClassField.mk "_expr_0" [StmtModifier.Private]] := by
  refine ⟨rfl, ?_⟩
  rw [(C1_bind_present_emits_one_field_one_init_one_guard sampleView (createCurrValueExpr 0)
    (createBindFieldExpr 0) sampleAst .thisExpr .viewResolver [] [] 0 (.readVar "x") rfl).1]
  decide

/-- C3: for every binding whose expression lowers to no computation, the
guard emitter emits nothing at all: the view (its field list, create method,
and every other component) and the target method are returned unchanged. -/
theorem C3_bind_absent_emits_nothing
    (view : CompileView) (currValExpr : ReadVarExpr) (fieldExpr : ReadPropExpr)
    (parsedExpression : CdAst) (context : OExpr) (nameResolver : NameResolver)
    (actions : List OStmt) (method : List OStmt) (bindingIndex : Nat)
    (h : parsedExpression.expression = none) :
    bind view currValExpr fieldExpr parsedExpression context nameResolver actions method
        bindingIndex = (view, method) :=
  bind_eq_of_absent view currValExpr fieldExpr parsedExpression context nameResolver actions
    method bindingIndex h

/-- C3 witness: at a concrete view and an absent lowering, the guard emitter
returns the view and method unchanged. -/
theorem C3_witness :
    sampleAbsentAst.expression = none ∧
    bind sampleView (createCurrValueExpr 0) (createBindFieldExpr 0) sampleAbsentAst .thisExpr
        .viewResolver [] [] 0 = (sampleView, []) :=
  ⟨rfl, C3_bind_absent_emits_nothing sampleView (createCurrValueExpr 0) (createBindFieldExpr 0)
    sampleAbsentAst .thisExpr .viewResolver [] [] 0 rfl⟩

/-- C4: the sanitizer selector is the identity on classification NONE, maps
each of the five named non-NONE classifications to a call on the
view-utilities sanitizer passing the correspondingly named security-context
enum constant and the value, and for every other classification throws a
generation-time error whose message contains "unexpected SecurityContext". -/
theorem C4_sanitizedValue_total_on_named_contexts
    (boundProp : BoundElementPropertyAst) (renderValue : OExpr) :
    (boundProp.securityContext = SecurityContext.NONE →
      sanitizedValue boundProp renderValue = .ok renderValue) ∧
    (boundProp.securityContext = SecurityContext.HTML →
      sanitizedValue boundProp renderValue = .ok (sanitizeCall "HTML" renderValue)) ∧
    (boundProp.securityContext = SecurityContext.STYLE →
      sanitizedValue boundProp renderValue = .ok (sanitizeCall "STYLE" renderValue)) ∧
    (boundProp.securityContext = SecurityContext.SCRIPT →
      sanitizedValue boundProp renderValue = .ok (sanitizeCall "SCRIPT" renderValue)) ∧
    (boundProp.securityContext = SecurityContext.URL →
      sanitizedValue boundProp renderValue = .ok (sanitizeCall "URL" renderValue)) ∧
    (boundProp.securityContext = SecurityContext.RESOURCE_URL →
      sanitizedValue boundProp renderValue = .ok (sanitizeCall "RESOURCE_URL" renderValue)) ∧
    (SecurityContext.RESOURCE_URL < boundProp.securityContext →
      sanitizedValue boundProp renderValue =
        .error ("internal error, " ++ "unexpected SecurityContext" ++
          (" " ++ toString boundProp.securityContext ++ "."))) := by
  refine ⟨?_, ?_, ?_, ?_, ?_, ?_, ?_⟩ <;> intro h
  · simp [sanitizedValue, h, SecurityContext.NONE]
  · simp [sanitizedValue, h, SecurityContext.HTML]
  · simp [sanitizedValue, h, SecurityContext.STYLE]
  · simp [sanitizedValue, h, SecurityContext.SCRIPT]
  · simp [sanitizedValue, h, SecurityContext.URL]
  · simp [sanitizedValue, h, SecurityContext.RESOURCE_URL]
  · rw [← unexpectedMessageDecomp]
    have h5 : (5 : Nat) < boundProp.securityContext := h
    have h6 : boundProp.securityContext = boundProp.securityContext - 6 + 6 :=
      (Nat.sub_add_cancel h5).symm
    unfold sanitizedValue
    rw [h6]
    rfl

/-- C4 witness: the selector at concrete classifications NONE, HTML and the
out-of-range classification 7. -/
theorem C4_witness :
    sanitizedValue ⟨.Property, "p", ⟨none, 0, false⟩, none, SecurityContext.NONE⟩
        (.readVar "v") = .ok (.readVar "v") ∧
    sanitizedValue ⟨.Property, "p", ⟨none, 0, false⟩, none, SecurityContext.HTML⟩
        (.readVar "v") = .ok (sanitizeCall "HTML" (.readVar "v")) ∧
    sanitizedValue ⟨.Property, "p", ⟨none, 0, false⟩, none, 7⟩ (.readVar "v") =
      .error ("internal error, " ++ "unexpected SecurityContext" ++
        (" " ++ toString (7 : Nat) ++ ".")) :=
  ⟨(C4_sanitizedValue_total_on_named_contexts
      ⟨.Property, "p", ⟨none, 0, false⟩, none, SecurityContext.NONE⟩ (.readVar "v")).1 rfl,
   (C4_sanitizedValue_total_on_named_contexts
      ⟨.Property, "p", ⟨none, 0, false⟩, none, SecurityContext.HTML⟩ (.readVar "v")).2.1 rfl,
   (C4_sanitizedValue_total_on_named_contexts
      ⟨.Property, "p", ⟨none, 0, false⟩, none, 7⟩ (.readVar "v")).2.2.2.2.2.2 (by decide)⟩

/-- C5: after the per-input statements, the directive input binder appends
the wrapper's detectChangesInternal call as a plain statement with its
result discarded exactly when the directive is not a component with a
non-default change-detection strategy; when the directive is a component
with a non-default (push-based) strategy, the same call is instead wrapped
in a conditional whose then-branch is a single markAsCheckOnce call on the
element's component view. -/
theorem C5_detectChangesInternal_statement_form (directiveAst : DirectiveAst)
    (directiveWrapperInstance : OExpr) (compileElement : CompileElement) (view : CompileView) :
    ∃ mid,
      (bindDirectiveInputs directiveAst
          directiveWrapperInstance compileElement view).detectChangesInInputsMethod =
        view.detectChangesInInputsMethod ++ mid ++
        [if directiveAst.directive.isComponent &&
            !(isDefaultChangeDetectionStrategy directiveAst.directive.changeDetection) then
          OStmt.ifStmt
            (OExpr.callMethod directiveWrapperInstance "detectChangesInternal"
              [.thisExpr, compileElement.renderNode, DetectChangesVars.throwOnChange])
            [.exprStmt (.callMethod (.readProp compileElement.appElement "componentView")
              "markAsCheckOnce" [])]
        else
          OStmt.exprStmt (OExpr.callMethod directiveWrapperInstance "detectChangesInternal"
            [.thisExpr, compileElement.renderNode, DetectChangesVars.throwOnChange])] := by
  obtain ⟨ext, hext⟩ := foldl_method_extends directiveWrapperInstance compileElement
    directiveAst.inputs view view.detectChangesInInputsMethod
  refine ⟨ext, ?_⟩
  simp only [bindDirectiveInputs, hext, List.append_assoc]

/-- C9: for every directive input whose expression evaluation is present,
the directive-input binder emits, after the evaluation statements (which
contain no conditional), exactly one call to the wrapper's per-input check
method named after the input with arguments (fresh value, throw-on-change
flag, force-update flag when present else the literal false), touching no
view component other than the binding list (in particular allocating no
cached field); inputs whose evaluation is absent produce no statement at
all. -/
theorem C9_directive_input_check_call (directiveWrapperInstance : OExpr)
    (compileElement : CompileElement) (view : CompileView) (method : List OStmt)
    (input : BoundDirectivePropertyAst) :
    (∀ e, input.value.expression = some e →
      bindDirectiveInputsStep directiveWrapperInstance compileElement (view, method) input =
        ({ view with bindings := view.bindings ++ [CompileBinding.mk compileElement.nodeIndex] },
          method ++ evalStmts input.value view.bindings.length
            (createCurrValueExpr view.bindings.length) e ++
          [OStmt.exprStmt (.callMethod directiveWrapperInstance
            ("check_" ++ input.directiveName)
            [(createCurrValueExpr view.bindings.length).expr, DetectChangesVars.throwOnChange,
             (evalForceUpdate input.value).getD (.literalBool false)])]) ∧
      (evalStmts input.value view.bindings.length
          (createCurrValueExpr view.bindings.length) e).all (fun s => !s.isIf) = true) ∧
    (input.value.expression = none →
      bindDirectiveInputsStep directiveWrapperInstance compileElement (view, method) input =
        ({ view with bindings := view.bindings ++ [CompileBinding.mk compileElement.nodeIndex] },
          method)) := by
  constructor
  · intro e h
    exact ⟨bindDirectiveInputsStep_eq_of_present directiveWrapperInstance compileElement view
        method input e h,
      evalStmts_no_conditional input.value view.bindings.length
        (createCurrValueExpr view.bindings.length) e⟩
  · intro h
    exact bindDirectiveInputsStep_eq_of_absent directiveWrapperInstance compileElement view
      method input h

/-- C9 witness: one present input emits the check call for slot 0; one
absent input emits nothing. -/
theorem C9_witness :
    samplePlainAst.expression = some (OExpr.readVar "x") ∧
    bindDirectiveInputsStep (.readVar "wrapper") sampleElement (sampleView, [])
        ⟨"value", samplePlainAst⟩ =
      ({ sampleView with bindings := [CompileBinding.mk 2] },
        [.declareVar "currVal_0" (some (.readVar "x")) true,
         .exprStmt (.callMethod (.readVar "wrapper") "check_value"
           [.readVar "currVal_0", DetectChangesVars.throwOnChange, .literalBool false])]) ∧
    bindDirectiveInputsStep (.readVar "wrapper") sampleElement (sampleView, [])
        ⟨"value", sampleAbsentAst⟩ =
      ({ sampleView with bindings := [CompileBinding.mk 2] }, []) := by
  refine ⟨rfl, ?_, ?_⟩
  · rw [(C9_directive_input_check_call (.readVar "wrapper") sampleElement sampleView []
      ⟨"value", samplePlainAst⟩).1 (.readVar "x") rfl |>.1]
    rfl
  · exact (C9_directive_input_check_call (.readVar "wrapper") sampleElement sampleView []
      ⟨"value", sampleAbsentAst⟩).2 rfl

/-- C8: for a binding with a present evaluation result, the statements
appended to the target method appear in the order: one declaration per
required temporary, then the unwrapper reset call (only when unwrapping is
needed), then the immutable declaration of the fresh-value variable, then
the conditional guard; and when a second binding is emitted into the same
method, the two blocks (and hence the two guards) appear in
binding-registration order. -/
theorem C8_statement_order
    (view view2 : CompileView) (currValExpr currValExpr2 : ReadVarExpr)
    (fieldExpr fieldExpr2 : ReadPropExpr) (parsedExpression parsedExpression2 : CdAst)
    (context context2 : OExpr) (nameResolver nameResolver2 : NameResolver)
    (actions actions2 : List OStmt) (method : List OStmt)
    (bindingIndex bindingIndex2 : Nat) (e e2 : OExpr)
    (h : parsedExpression.expression = some e)
    (h2 : parsedExpression2.expression = some e2) :
    (bind view currValExpr fieldExpr parsedExpression context nameResolver actions method
        bindingIndex).2 =
      method ++
        (List.range parsedExpression.temporaryCount).map (temporaryDeclaration bindingIndex) ++
        (if parsedExpression.needsValueUnwrapper then
          [OStmt.exprStmt (.callMethod DetectChangesVars.valUnwrapper "reset" [])]
        else []) ++
        [OStmt.declareVar currValExpr.name (some e) true] ++
        [guardStmt parsedExpression fieldExpr currValExpr actions] ∧
    (bind view2 currValExpr2 fieldExpr2 parsedExpression2 context2 nameResolver2 actions2
        (bind view currValExpr fieldExpr parsedExpression context nameResolver actions method
          bindingIndex).2
        bindingIndex2).2 =
      method ++
        (evalStmts parsedExpression bindingIndex currValExpr e ++
          [guardStmt parsedExpression fieldExpr currValExpr actions]) ++
        (evalStmts parsedExpression2 bindingIndex2 currValExpr2 e2 ++
          [guardStmt parsedExpression2 fieldExpr2 currValExpr2 actions2]) := by
  have b1 := bind_eq_of_present view currValExpr fieldExpr parsedExpression context nameResolver
    actions method bindingIndex e h
  constructor
  · rw [b1]
    simp [evalStmts, List.append_assoc]
  · rw [b1]
    rw [bind_eq_of_present view2 currValExpr2 fieldExpr2 parsedExpression2 context2 nameResolver2
      actions2 _ bindingIndex2 e2 h2]
    simp [List.append_assoc]

/-- C8 witness: two consecutive bindings on the same method at concrete
inputs produce the two blocks in registration order. -/
theorem C8_witness :
    sampleAst.expression = some (OExpr.readVar "x") ∧
    samplePlainAst.expression = some (OExpr.readVar "x") ∧
    (bind sampleView (createCurrValueExpr 1) (createBindFieldExpr 1) samplePlainAst .thisExpr
        .viewResolver []
        (bind sampleView (createCurrValueExpr 0) (createBindFieldExpr 0) sampleAst .thisExpr
          .viewResolver [] [] 0).2
        1).2 =
      [] ++
        (evalStmts sampleAst 0 (createCurrValueExpr 0) (.readVar "x") ++
          [guardStmt sampleAst (createBindFieldExpr 0) (createCurrValueExpr 0) []]) ++
        (evalStmts samplePlainAst 1 (createCurrValueExpr 1) (.readVar "x") ++
          [guardStmt samplePlainAst (createBindFieldExpr 1) (createCurrValueExpr 1) []]) :=
  ⟨rfl, rfl,
    (C8_statement_order sampleView sampleView (createCurrValueExpr 0) (createCurrValueExpr 1)
      (createBindFieldExpr 0) (createBindFieldExpr 1) sampleAst samplePlainAst .thisExpr
      .thisExpr .viewResolver .viewResolver [] [] [] 0 1 (.readVar "x") (.readVar "x")
      rfl rfl).2⟩

/-- C7: the value an Attribute binding passes to setElementAttribute is the
null marker when the value is blank and its string form otherwise; the value
a Style binding passes to setElementStyle is the null marker when the value
is blank and otherwise its string form with the declared unit appended when
one is present. -/
theorem C7_attribute_style_null_marker
    (context : OExpr) (compileElement : CompileElement) (isHostProp : Bool)
    (eventListeners : List CompileEventListener) (view : CompileView)
    (boundProp : BoundElementPropertyAst) (oldV newV : OExpr) (e : OExpr)
    (hold : sanitizedValue boundProp (createBindFieldExpr view.bindings.length).expr = .ok oldV)
    (hnew : sanitizedValue boundProp (createCurrValueExpr view.bindings.length).expr = .ok newV)
    (hpresent : boundProp.value.expression = some e) :
    (boundProp.type = .Attribute →
      bindAndWriteToRendererStep context compileElement isHostProp eventListeners view
          boundProp =
        .ok { view with
          bindings := view.bindings ++ [CompileBinding.mk compileElement.nodeIndex],
          fields := view.fields ++
            [ClassField.mk (createBindFieldExpr view.bindings.length).name
              [StmtModifier.Private]],
          createMethod := view.createMethod ++
            [uninitializedInitStmt (createBindFieldExpr view.bindings.length).name],
          detectChangesRenderPropertiesMethod := view.detectChangesRenderPropertiesMethod ++
            evalStmts boundProp.value (view.bindings.length + 1)
              (createCurrValueExpr view.bindings.length) e ++
            [guardStmt boundProp.value (createBindFieldExpr view.bindings.length)
              (createCurrValueExpr view.bindings.length)
              [setElementAttributeStmt compileElement.renderNode boundProp.name
                (OExpr.conditional (.isBlank newV) .nullExpr
                  (.callMethod newV "toString" []))]] }) ∧
    (boundProp.type = .Style →
      bindAndWriteToRendererStep context compileElement isHostProp eventListeners view
          boundProp =
        .ok { view with
          bindings := view.bindings ++ [CompileBinding.mk compileElement.nodeIndex],
          fields := view.fields ++
            [ClassField.mk (createBindFieldExpr view.bindings.length).name
              [StmtModifier.Private]],
          createMethod := view.createMethod ++
            [uninitializedInitStmt (createBindFieldExpr view.bindings.length).name],
          detectChangesRenderPropertiesMethod := view.detectChangesRenderPropertiesMethod ++
            evalStmts boundProp.value (view.bindings.length + 1)
              (createCurrValueExpr view.bindings.length) e ++
            [guardStmt boundProp.value (createBindFieldExpr view.bindings.length)
              (createCurrValueExpr view.bindings.length)
              [setElementStyleStmt compileElement.renderNode boundProp.name
                (OExpr.conditional (.isBlank newV) .nullExpr
                  (match boundProp.unit with
                   | some u => OExpr.plus (.callMethod newV "toString" []) (.literalStr u)
                   | none => OExpr.callMethod newV "toString" []))]] }) := by
  constructor
  · intro htype
    rw [bindAndWriteToRendererStep_eq_attribute context compileElement isHostProp eventListeners
      view boundProp oldV newV htype hold hnew]
    rw [bind_eq_of_present _ _ _ _ _ _ _ _ _ _ hpresent]
    simp [installRenderPropsMethod, attributeRenderValue]
  · intro htype
    rw [bindAndWriteToRendererStep_eq_style context compileElement isHostProp eventListeners
      view boundProp oldV newV htype hold hnew]
    rw [bind_eq_of_present _ _ _ _ _ _ _ _ _ _ hpresent]
    simp [installRenderPropsMethod, styleRenderValue]

/-- C6: for an Animation binding, the update-path transition statement calls
the resolved animation function with old and fresh values each replaced by
the empty-animation-state constant exactly when equal to the uninitialized
sentinel (animationUpdateStmt); the detach-path transition statement,
appended to the view's detach method, calls the animation function with the
raw old value and the empty-animation-state constant, never the fresh value
(animationDetachStmt); and the apply statements are routed to the
animation-bindings method while the main change-detection method is left
unchanged. -/
theorem C6_animation_normalization_detach_and_routing
    (context : OExpr) (compileElement : CompileElement) (isHostProp : Bool)
    (eventListeners : List CompileEventListener) (view : CompileView)
    (boundProp : BoundElementPropertyAst) (oldV newV : OExpr) (e : OExpr)
    (htype : boundProp.type = .Animation)
    (hold : sanitizedValue boundProp (createBindFieldExpr view.bindings.length).expr = .ok oldV)
    (hnew : sanitizedValue boundProp (createCurrValueExpr view.bindings.length).expr = .ok newV)
    (hpresent : boundProp.value.expression = some e) :
    bindAndWriteToRendererStep context compileElement isHostProp eventListeners view boundProp =
      .ok { view with
        bindings := view.bindings ++ [CompileBinding.mk compileElement.nodeIndex],
        fields := view.fields ++
          [ClassField.mk (createBindFieldExpr view.bindings.length).name
            [StmtModifier.Private]],
        createMethod := view.createMethod ++
          [uninitializedInitStmt (createBindFieldExpr view.bindings.length).name],
        detachMethod := view.detachMethod ++
          [animationDetachStmt (animTargetView isHostProp compileElement)
            compileElement.renderNode oldV boundProp.name] ++
          animationListenerStmts eventListeners boundProp.name,
        animationBindingsMethod := view.animationBindingsMethod ++
          evalStmts boundProp.value (view.bindings.length + 1)
            (createCurrValueExpr view.bindings.length) e ++
          [guardStmt boundProp.value (createBindFieldExpr view.bindings.length)
            (createCurrValueExpr view.bindings.length)
            ([animationUpdateStmt (animTargetView isHostProp compileElement)
                compileElement.renderNode oldV newV boundProp.name] ++
              animationListenerStmts eventListeners boundProp.name)] } := by
  rw [bindAndWriteToRendererStep_eq_animation context compileElement isHostProp eventListeners
    view boundProp oldV newV htype hold hnew]
  rw [bind_eq_of_present _ _ _ _ _ _ _ _ _ _ hpresent]
  simp [installAnimationMethod]

/-- C10: the animation function of an Animation binding is resolved from the
animations table of the element's component view's component type when the
binding is a directive host property, and from the current view's own
component type otherwise; in both cases the detach-path statement appended
to the detach method uses that resolved function. -/
theorem C10_animation_fn_target_view
    (context : OExpr) (compileElement : CompileElement)
    (eventListeners : List CompileEventListener) (view : CompileView)
    (boundProp : BoundElementPropertyAst) (oldV newV : OExpr)
    (htype : boundProp.type = .Animation)
    (hold : sanitizedValue boundProp (createBindFieldExpr view.bindings.length).expr = .ok oldV)
    (hnew : sanitizedValue boundProp (createCurrValueExpr view.bindings.length).expr = .ok newV) :
    (bindAndWriteToRendererStep context compileElement true eventListeners view
        boundProp).map CompileView.detachMethod =
      .ok (view.detachMethod ++
        [animationDetachStmt (.readProp compileElement.appElement "componentView")
          compileElement.renderNode oldV boundProp.name] ++
        animationListenerStmts eventListeners boundProp.name) ∧
    (bindAndWriteToRendererStep context compileElement false eventListeners view
        boundProp).map CompileView.detachMethod =
      .ok (view.detachMethod ++
        [animationDetachStmt .thisExpr compileElement.renderNode oldV boundProp.name] ++
        animationListenerStmts eventListeners boundProp.name) := by
  constructor <;>
  · rw [bindAndWriteToRendererStep_eq_animation context compileElement _ eventListeners
      view boundProp oldV newV htype hold hnew]
    cases hp : boundProp.value.expression with
    | none =>
      rw [bind_eq_of_absent _ _ _ _ _ _ _ _ _ hp]
      simp [installAnimationMethod, animTargetView, Except.map]
    | some e =>
      rw [bind_eq_of_present _ _ _ _ _ _ _ _ _ _ hp]
      simp [installAnimationMethod, animTargetView, Except.map]

/-- C7 witness: concrete Attribute and Style runs at slot 0. -/
theorem C7_witness :
    c7AttrProp.type = .Attribute ∧ c7StyleProp.type = .Style ∧
    c7AttrProp.value.expression = some (OExpr.readVar "x") ∧
    bindAndWriteToRendererStep .thisExpr sampleElement false [] sampleView c7AttrProp =
      .ok { sampleView with
        bindings := [CompileBinding.mk 2],
        fields := [ClassField.mk (createBindFieldExpr 0).name [StmtModifier.Private]],
        createMethod := [uninitializedInitStmt (createBindFieldExpr 0).name],
        detectChangesRenderPropertiesMethod :=
          evalStmts c7AttrProp.value 1 (createCurrValueExpr 0) (.readVar "x") ++
          [guardStmt c7AttrProp.value (createBindFieldExpr 0) (createCurrValueExpr 0)
            [setElementAttributeStmt sampleElement.renderNode "title"
              (OExpr.conditional (.isBlank (createCurrValueExpr 0).expr) .nullExpr
                (.callMethod (createCurrValueExpr 0).expr "toString" []))]] } ∧
    bindAndWriteToRendererStep .thisExpr sampleElement false [] sampleView c7StyleProp =
      .ok { sampleView with
        bindings := [CompileBinding.mk 2],
        fields := [ClassField.mk (createBindFieldExpr 0).name [StmtModifier.Private]],
        createMethod := [uninitializedInitStmt (createBindFieldExpr 0).name],
        detectChangesRenderPropertiesMethod :=
          evalStmts c7StyleProp.value 1 (createCurrValueExpr 0) (.readVar "x") ++
          [guardStmt c7StyleProp.value (createBindFieldExpr 0) (createCurrValueExpr 0)
            [setElementStyleStmt sampleElement.renderNode "width"
              (OExpr.conditional (.isBlank (createCurrValueExpr 0).expr) .nullExpr
                (OExpr.plus (.callMethod (createCurrValueExpr 0).expr "toString" [])
                  (.literalStr "px")))]] } := by
  refine ⟨rfl, rfl, rfl, ?_, ?_⟩
  · exact (C7_attribute_style_null_marker .thisExpr sampleElement false [] sampleView
      c7AttrProp ((createBindFieldExpr 0).expr) ((createCurrValueExpr 0).expr)
      (.readVar "x") rfl rfl rfl).1 rfl
  · exact (C7_attribute_style_null_marker .thisExpr sampleElement false [] sampleView
      c7StyleProp ((createBindFieldExpr 0).expr) ((createCurrValueExpr 0).expr)
      (.readVar "x") rfl rfl rfl).2 rfl

/-- C6 witness: a concrete Animation binding at slot 0 with a matching
animation listener. -/
theorem C6_witness :
    c6AnimProp.type = .Animation ∧
    c6AnimProp.value.expression = some (OExpr.readVar "x") ∧
    bindAndWriteToRendererStep .thisExpr sampleElement false sampleListeners sampleView
        c6AnimProp =
      .ok { sampleView with
        bindings := [CompileBinding.mk 2],
        fields := [ClassField.mk (createBindFieldExpr 0).name [StmtModifier.Private]],
        createMethod := [uninitializedInitStmt (createBindFieldExpr 0).name],
        detachMethod :=
          [animationDetachStmt (animTargetView false sampleElement) sampleElement.renderNode
            ((createBindFieldExpr 0).expr) "fade"] ++
          animationListenerStmts sampleListeners "fade",
        animationBindingsMethod :=
          evalStmts c6AnimProp.value 1 (createCurrValueExpr 0) (.readVar "x") ++
          [guardStmt c6AnimProp.value (createBindFieldExpr 0) (createCurrValueExpr 0)
            ([animationUpdateStmt (animTargetView false sampleElement)
                sampleElement.renderNode ((createBindFieldExpr 0).expr)
                ((createCurrValueExpr 0).expr) "fade"] ++
              animationListenerStmts sampleListeners "fade")] } :=
  ⟨rfl, rfl,
    C6_animation_normalization_detach_and_routing .thisExpr sampleElement false
      sampleListeners sampleView c6AnimProp ((createBindFieldExpr 0).expr)
      ((createCurrValueExpr 0).expr) (.readVar "x") rfl rfl rfl rfl⟩

/-- C10 witness: the same concrete Animation binding resolved as a host
property and as a template binding. -/
theorem C10_witness :
    c6AnimProp.type = .Animation ∧
    (bindAndWriteToRendererStep .thisExpr sampleElement true sampleListeners sampleView
        c6AnimProp).map CompileView.detachMethod =
      .ok ([animationDetachStmt (.readProp sampleElement.appElement "componentView")
          sampleElement.renderNode ((createBindFieldExpr 0).expr) "fade"] ++
        animationListenerStmts sampleListeners "fade") ∧
    (bindAndWriteToRendererStep .thisExpr sampleElement false sampleListeners sampleView
        c6AnimProp).map CompileView.detachMethod =
      .ok ([animationDetachStmt .thisExpr sampleElement.renderNode
          ((createBindFieldExpr 0).expr) "fade"] ++
        animationListenerStmts sampleListeners "fade") :=
  ⟨rfl,
    (C10_animation_fn_target_view .thisExpr sampleElement sampleListeners sampleView
      c6AnimProp ((createBindFieldExpr 0).expr) ((createCurrValueExpr 0).expr)
      rfl rfl rfl).1,
    (C10_animation_fn_target_view .thisExpr sampleElement sampleListeners sampleView
      c6AnimProp ((createBindFieldExpr 0).expr) ((createCurrValueExpr 0).expr)
      rfl rfl rfl).2⟩

theorem error_bind {ε α β : Type} (msg : ε) (f : α → Except ε β) :
    (Except.error msg : Except ε α) >>= f = Except.error msg := rfl

theorem bind_fst_bindings (view : CompileView) (currValExpr : ReadVarExpr)
    (fieldExpr : ReadPropExpr) (parsedExpression : CdAst) (context : OExpr)
    (nameResolver : NameResolver) (actions : List OStmt) (method : List OStmt)
    (bindingIndex : Nat) :
    (bind view currValExpr fieldExpr parsedExpression context nameResolver actions method
      bindingIndex).1.bindings = view.bindings := by
  cases hp : parsedExpression.expression with
  | none => rw [bind_eq_of_absent _ _ _ _ _ _ _ _ _ hp]
  | some e => rw [bind_eq_of_present _ _ _ _ _ _ _ _ _ _ hp]

theorem bindAndWriteToRendererStep_ok_bindings (context : OExpr)
    (compileElement : CompileElement) (isHostProp : Bool)
    (eventListeners : List CompileEventListener) (view : CompileView)
    (boundProp : BoundElementPropertyAst) (outView : CompileView)
    (h : bindAndWriteToRendererStep context compileElement isHostProp eventListeners view
      boundProp = .ok outView) :
    outView.bindings = view.bindings ++ [CompileBinding.mk compileElement.nodeIndex] := by
  cases h1 : sanitizedValue boundProp (createBindFieldExpr view.bindings.length).expr with
  | error msg => simp [bindAndWriteToRendererStep, h1, error_bind] at h
  | ok oldV =>
  cases h2 : sanitizedValue boundProp (createCurrValueExpr view.bindings.length).expr with
  | error msg => simp [bindAndWriteToRendererStep, h1, h2, ok_bind, error_bind] at h
  | ok newV =>
  cases ht : boundProp.type <;>
    [rw [bindAndWriteToRendererStep_eq_property context compileElement isHostProp eventListeners
        view boundProp oldV newV ht h1 h2] at h;
     rw [bindAndWriteToRendererStep_eq_attribute context compileElement isHostProp eventListeners
        view boundProp oldV newV ht h1 h2] at h;
     rw [bindAndWriteToRendererStep_eq_class context compileElement isHostProp eventListeners
        view boundProp oldV newV ht h1 h2] at h;
     rw [bindAndWriteToRendererStep_eq_style context compileElement isHostProp eventListeners
        view boundProp oldV newV ht h1 h2] at h;
     rw [bindAndWriteToRendererStep_eq_animation context compileElement isHostProp eventListeners
        view boundProp oldV newV ht h1 h2] at h] <;>
  · injection h with h'
    subst h'
    simp [installRenderPropsMethod, installAnimationMethod, bind_fst_bindings]

/-- C2 counterexample: on a fresh view the render-property binder registers
the binding at slot 0 — the cached field is _expr_0 and the fresh-value
variable currVal_0 — yet the single temporary declaration it emits is
tmp_1_0, not tmp_0_0: the evaluation statements use binding index 1 (the
binding count re-read after registration), refuting the claim that the
cached field, the fresh-value variable and the evaluation statements all
use the same slot index. -/
theorem C2_counterexample :
    c2Run = Except.ok c2RunView ∧
    sampleView.bindings.length = 0 ∧
    c2RunView.fields = [ClassField.mk "_expr_0" [StmtModifier.Private]] ∧
    c2RunView.detectChangesRenderPropertiesMethod =
      [temporaryDeclaration 1 0,
       OStmt.declareVar (createCurrValueExpr 0).name (some (.readVar "x")) true,
       guardStmt c2Prop.value (createBindFieldExpr 0) (createCurrValueExpr 0)
         [setElementPropertyStmt sampleElement.renderNode "title"
           (createCurrValueExpr 0).expr]] ∧
    temporaryDeclaration 1 0 = OStmt.declareVar "tmp_1_0" (some .nullExpr) false ∧
    temporaryDeclaration 1 0 ≠ temporaryDeclaration 0 0 := by
  refine ⟨rfl, rfl, by decide, rfl, rfl, ?_⟩
  intro hcontra
  injection hcontra with h1 h2 h3
  exact absurd h1 (by decide)

/-- C2 amended: every binder assigns, to each binding it registers, the slot
index equal to the number of previously registered bindings (indices grow by
1 across the view regardless of binding kind), and derives the cached field
and the fresh-value variable from that slot index; the evaluation statements
also use that slot index for render-text and directive-input bindings, but
for render-property bindings they use the slot index plus one - the binding
count re-read after registration. -/
theorem C2_amended_slot_indices
    (boundText : BoundTextAst) (compileNode : CompileNode)
    (context : OExpr) (compileElement : CompileElement) (isHostProp : Bool)
    (eventListeners : List CompileEventListener) (directiveWrapperInstance : OExpr)
    (input : BoundDirectivePropertyAst) (boundProp : BoundElementPropertyAst)
    (view : CompileView) (method : List OStmt) (e : OExpr) (oldV newV : OExpr) :
    ((bindRenderText boundText compileNode view).bindings.length =
      view.bindings.length + 1) ∧
    ((bindDirectiveInputsStep directiveWrapperInstance compileElement (view, method)
        input).1.bindings.length = view.bindings.length + 1) ∧
    (∀ outView, bindAndWriteToRendererStep context compileElement isHostProp eventListeners
        view boundProp = .ok outView → outView.bindings.length = view.bindings.length + 1) ∧
    (boundText.value.expression = some e →
      (bindRenderText boundText compileNode view).fields = view.fields ++
        [ClassField.mk (createBindFieldExpr view.bindings.length).name
          [StmtModifier.Private]] ∧
      (bindRenderText boundText compileNode view).detectChangesRenderPropertiesMethod =
        view.detectChangesRenderPropertiesMethod ++
        evalStmts boundText.value view.bindings.length
          (createCurrValueExpr view.bindings.length) e ++
        [guardStmt boundText.value (createBindFieldExpr view.bindings.length)
          (createCurrValueExpr view.bindings.length)
          [setTextStmt compileNode.renderNode (createCurrValueExpr view.bindings.length)]]) ∧
    (input.value.expression = some e →
      (bindDirectiveInputsStep directiveWrapperInstance compileElement (view, method)
          input).2 =
        method ++ evalStmts input.value view.bindings.length
          (createCurrValueExpr view.bindings.length) e ++
        [checkInputStmt directiveWrapperInstance input.directiveName
          (createCurrValueExpr view.bindings.length) (evalForceUpdate input.value)]) ∧
    (boundProp.value.expression = some e →
      sanitizedValue boundProp (createBindFieldExpr view.bindings.length).expr = .ok oldV →
      sanitizedValue boundProp (createCurrValueExpr view.bindings.length).expr = .ok newV →
      ∃ outView actions,
        bindAndWriteToRendererStep context compileElement isHostProp eventListeners view
          boundProp = .ok outView ∧
        outView.fields = view.fields ++
          [ClassField.mk (createBindFieldExpr view.bindings.length).name
            [StmtModifier.Private]] ∧
        (if boundProp.type = PropertyBindingType.Animation then
          outView.animationBindingsMethod = view.animationBindingsMethod ++
            evalStmts boundProp.value (view.bindings.length + 1)
              (createCurrValueExpr view.bindings.length) e ++
            [guardStmt boundProp.value (createBindFieldExpr view.bindings.length)
              (createCurrValueExpr view.bindings.length) actions]
        else
          outView.detectChangesRenderPropertiesMethod =
            view.detectChangesRenderPropertiesMethod ++
            evalStmts boundProp.value (view.bindings.length + 1)
              (createCurrValueExpr view.bindings.length) e ++
            [guardStmt boundProp.value (createBindFieldExpr view.bindings.length)
              (createCurrValueExpr view.bindings.length) actions])) := by
  refine ⟨?_, ?_, ?_, ?_, ?_, ?_⟩
  · cases hp : boundText.value.expression with
    | none => rw [bindRenderText_eq_of_absent _ _ _ hp]; simp
    | some e2 => rw [bindRenderText_eq_of_present _ _ _ _ hp]; simp
  · cases hp : input.value.expression with
    | none =>
      rw [bindDirectiveInputsStep_eq_of_absent _ _ _ _ _ hp]; simp
    | some e2 =>
      rw [bindDirectiveInputsStep_eq_of_present _ _ _ _ _ _ hp]; simp
  · intro outView h
    rw [bindAndWriteToRendererStep_ok_bindings context compileElement isHostProp eventListeners
      view boundProp outView h]
    simp
  · intro hp
    rw [bindRenderText_eq_of_present _ _ _ _ hp]
    exact ⟨rfl, rfl⟩
  · intro hp
    rw [bindDirectiveInputsStep_eq_of_present _ _ _ _ _ _ hp]
  · intro hp hold hnew
    cases ht : boundProp.type
    case Property =>
      rw [bindAndWriteToRendererStep_eq_property context compileElement isHostProp eventListeners
        view boundProp oldV newV ht hold hnew]
      rw [bind_eq_of_present _ _ _ _ _ _ _ _ _ _ hp]
      refine ⟨_, (if view.genConfig.logBindingUpdate then
          [logBindingUpdateStmt compileElement.renderNode boundProp.name newV] else []) ++
        [setElementPropertyStmt compileElement.renderNode boundProp.name newV], rfl, ?_, ?_⟩
      · simp [installRenderPropsMethod]
      · simp [installRenderPropsMethod, ht]
    case Attribute =>
      rw [bindAndWriteToRendererStep_eq_attribute context compileElement isHostProp eventListeners
        view boundProp oldV newV ht hold hnew]
      rw [bind_eq_of_present _ _ _ _ _ _ _ _ _ _ hp]
      refine ⟨_, [setElementAttributeStmt compileElement.renderNode boundProp.name
        (attributeRenderValue newV)], rfl, ?_, ?_⟩
      · simp [installRenderPropsMethod]
      · simp [installRenderPropsMethod, ht]
    case Class =>
      rw [bindAndWriteToRendererStep_eq_class context compileElement isHostProp eventListeners
        view boundProp oldV newV ht hold hnew]
      rw [bind_eq_of_present _ _ _ _ _ _ _ _ _ _ hp]
      refine ⟨_, [setElementClassStmt compileElement.renderNode boundProp.name newV],
        rfl, ?_, ?_⟩
      · simp [installRenderPropsMethod]
      · simp [installRenderPropsMethod, ht]
    case Style =>
      rw [bindAndWriteToRendererStep_eq_style context compileElement isHostProp eventListeners
        view boundProp oldV newV ht hold hnew]
      rw [bind_eq_of_present _ _ _ _ _ _ _ _ _ _ hp]
      refine ⟨_, [setElementStyleStmt compileElement.renderNode boundProp.name
        (styleRenderValue newV boundProp.unit)], rfl, ?_, ?_⟩
      · simp [installRenderPropsMethod]
      · simp [installRenderPropsMethod, ht]
    case Animation =>
      rw [bindAndWriteToRendererStep_eq_animation context compileElement isHostProp eventListeners
        view boundProp oldV newV ht hold hnew]
      rw [bind_eq_of_present _ _ _ _ _ _ _ _ _ _ hp]
      refine ⟨_, [animationUpdateStmt (animTargetView isHostProp compileElement)
          compileElement.renderNode oldV newV boundProp.name] ++
        animationListenerStmts eventListeners boundProp.name, rfl, ?_, ?_⟩
      · simp [installAnimationMethod]
      · simp [installAnimationMethod, ht]

/-- C2 witness: the amended statement at concrete inputs — the binding
count grows by one for the text and render-property binders, and the text
binder's field uses slot 0. -/
theorem C2_witness :
    samplePlainAst.expression = some (OExpr.readVar "x") ∧
    c2AmendedRun = Except.ok c2AmendedView ∧
    (bindRenderText ⟨samplePlainAst⟩ sampleNode sampleView).bindings.length =
      sampleView.bindings.length + 1 ∧
    c2AmendedView.bindings.length = sampleView.bindings.length + 1 ∧
    (bindRenderText ⟨samplePlainAst⟩ sampleNode sampleView).fields =
      sampleView.fields ++
        [ClassField.mk (createBindFieldExpr 0).name [StmtModifier.Private]] := by
  have h := C2_amended_slot_indices ⟨samplePlainAst⟩ sampleNode .thisExpr sampleElement false
    [] (.readVar "wrapper") ⟨"value", samplePlainAst⟩ c7AttrProp sampleView []
    (.readVar "x") ((createBindFieldExpr 0).expr) ((createCurrValueExpr 0).expr)
  exact ⟨rfl, rfl, h.1, h.2.2.1 c2AmendedView rfl, (h.2.2.2.1 rfl).1⟩

end ViewCompiler
